import Mathlib

/-!
Verification development for the EcoNova marketplace backend (Go).

The definitions below are a shallow embedding of the product lifecycle,
rating, and recommendation-aggregation core of the repository.  UUIDs are
abstracted as natural numbers, `time.Time` values as natural-number
timestamps, and Go `float64` prices/scores as rationals.  External
collaborators (base64 decoding, the S3 image store, the recommendation
gateway HTTP service) are modelled as explicit oracle parameters, and
database tables as Lean lists in table order.
-/

namespace EcoNova

/-! ### Data model (models/comment_model.go, models package)

`models.Product`, `models.Transaction`, `models.Rating` (fields per the
swagger definition `models.Rating`: id, user_id, product_id, score,
created_at), `models.User` (only the fields the claims touch are kept:
demographic lookup also clears password and obfuscates email in the
source, which no claim mentions). Status and action are plain strings in
the source (typed string aliases compared against string literals), so
they are embedded as `String`. -/

structure Product where
  id : Nat
  userId : Nat
  name : String
  description : String
  price : ℚ
  subCategory : String
  status : String
  category : String
  createdAt : Nat
deriving DecidableEq, Repr

structure Transaction where
  id : Nat
  itemId : Nat
  userId : Nat
  description : String
  action : String
  imageURL : String
  createdAt : Nat
deriving DecidableEq, Repr

/-- The price recorded on a persisted `models.Transaction` row.  The source
struct (models/comment_model.go) has exactly the fields ID, ItemID, UserID,
Description, Action, ImageURL, CreatedAt -- there is no price column on a
transaction, so no transaction row ever records a price. -/
def Transaction.recordedPrice (_ : Transaction) : Option ℚ := none

structure Rating where
  id : Nat
  userId : Nat
  productId : Nat
  score : ℚ
  createdAt : Nat
deriving DecidableEq, Repr

structure User where
  id : Nat
  name : String
  imageURL : String
deriving DecidableEq, Repr

/-- `models.TransactionRequest` (fields used by the cited code paths:
the controller in controller/home.go fills ItemID, UserID, Description,
Action, ImageURL; service/transaction_service.go reads ImageData). -/
structure TransactionRequest where
  itemId : Nat
  userId : Nat
  description : String
  action : String
  imageData : String
  imageURL : String
deriving DecidableEq, Repr

/-- `models.AddTransactionRequest`: Description, Action, ImageData/ImageURL,
Price (controller/home.go reads `transactionReq.Price` and
`transactionReq.ImageURL`). -/
structure AddTransactionRequest where
  description : String
  action : String
  imageData : String
  imageURL : String
  price : ℚ
deriving DecidableEq, Repr

/-! ### Product status derivation (controller/home.go, lines 421-433)

The source reads:
  if transactionReq.Action == "revitalized" \x7b product.Status = "restored" \x7d
  else \x7b if transaction.Action == "submited" \x7b product.Status = "available" \x7d
         else \x7b product.Status = "sold" \x7d \x7d
where `transaction.Action` was copied verbatim from `transactionReq.Action`,
so both tests see the same string.  Note the literal `"submited"` (single t)
in the second test, while the declared constant is
`Submitted TransactionAction = "submitted"`. -/

def resultingStatus (action : String) : String :=
  if action = "revitalized" then "restored"
  else if action = "submited" then "available"
  else "sold"

/-! ### External collaborators

`encoding/base64.StdEncoding.DecodeString`, the S3 `PutImage`/`GetImage`
helpers: opaque, possibly-failing calls, modelled as oracle functions
(`none` = the call failed). -/

structure ImageEnv where
  decodeBase64 : String → Option (List Nat)
  putImage : String → List Nat → Option String
  getImage : String → Option String

/-! ### TransactionService (service/transaction_service.go)

`handleTransactionPutImage` (lines 109-144): if the request carries base64
image data, decode it and upload it under the key `<transaction id>.jpg`;
either failure aborts with an error.  `AddTransaction` (lines 70-106):
build the transaction record (note: no price field), run the image step,
then `transactionRepo.Create` (an append to the ledger; the database write
itself is modelled as succeeding).  The pair returned below is
(result, ledger after the call). -/

def handleTransactionPutImage (env : ImageEnv) (t : Transaction)
    (req : TransactionRequest) : Except String Transaction :=
  if req.imageData ≠ "" then
    match env.decodeBase64 req.imageData with
    | none => Except.error "failed to decode image data"
    | some bytes =>
      let imageKey := toString t.id ++ ".jpg"
      match env.putImage ("images/" ++ imageKey) bytes with
      | none => Except.error "failed to upload image"
      | some _ => Except.ok { t with imageURL := imageKey }
  else Except.ok t

def addTransaction (env : ImageEnv) (newId now : Nat) (req : TransactionRequest)
    (ledger : List Transaction) : Except String Transaction × List Transaction :=
  let t : Transaction :=
    { id := newId, itemId := req.itemId, userId := req.userId,
      description := req.description, action := req.action,
      imageURL := "", createdAt := now }
  match handleTransactionPutImage env t req with
  | Except.error e => (Except.error ("failed to handle image URL: " ++ e), ledger)
  | Except.ok t2 => (Except.ok t2, ledger ++ [t2])

/-! ### ProductRepository (repository/product_repo.go)

Tables are lists in table order.  `GetByID` = `db.First` filtered by id;
`Update` = `db.Save`, an update keyed on the primary key;
`GetProductsByIDs` = `db.Find(&products, ids)`, i.e. `WHERE id IN ids`,
returning matching rows in table order (not in the order of `ids`);
`GetRandomProducts` = `ORDER BY RAND() LIMIT 10`, modelled as the first 10
elements of a caller-supplied shuffle `randomOrder` of the table. -/

def productRepoGetByID (products : List Product) (pid : Nat) : Option Product :=
  products.find? (fun p => p.id == pid)

def productRepoUpdate (products : List Product) (p : Product) : List Product :=
  products.map (fun q => if q.id == p.id then p else q)

def getProductsByIDs (store : List Product) (ids : List Nat) : List Product :=
  store.filter (fun p => ids.contains p.id)

def getRandomProducts (randomOrder : List Product) : List Product :=
  randomOrder.take 10

/-! ### Application state -/

structure AppState where
  products : List Product
  ledger : List Transaction
  ratings : List Rating
  users : List User
deriving DecidableEq, Repr

/-! ### AddTransactionToItem (controller/home.go, lines 364-443)

Resolve the product (`GetByID`; failure or absence is an error response and
leaves the state untouched), build a `TransactionRequest` from the bound
`AddTransactionRequest` (ImageData is not copied, so the image step never
runs on this path), call `AddTransaction`, then mutate the product: owner :=
acting user, price := request price, status := `resultingStatus` of the
request action, and persist via `productRepo.Update`. -/

def addTransactionToItem (env : ImageEnv) (newId now itemId userId : Nat)
    (req : AddTransactionRequest) (st : AppState) :
    Except String Transaction × AppState :=
  match productRepoGetByID st.products itemId with
  | none => (Except.error "Failed to retrieve product", st)
  | some product =>
    let treq : TransactionRequest :=
      { itemId := itemId, userId := userId, description := req.description,
        action := req.action, imageData := "", imageURL := req.imageURL }
    match addTransaction env newId now treq st.ledger with
    | (Except.error e, _) => (Except.error e, st)
    | (Except.ok t, ledger2) =>
      let product2 := { product with
        userId := treq.userId,
        price := req.price,
        status := resultingStatus req.action }
      (Except.ok t,
        { st with products := productRepoUpdate st.products product2,
                  ledger := ledger2 })

/-! ### RatingRepository and RatingService
(repository/ratings_repo.go, service/rating_services.go)

`FindByUserAndProduct` (repo lines 119-130): first row matching the
(user, product) pair, `nil` when none.  `Update` = `db.Save` keyed on the
rating id.  `RatingService.Create` (service lines 25-74): upsert -- update
the found row's score and timestamp in place, otherwise insert a new row
(its id generated at insert time, passed here as `newId`). -/

def findByUserAndProduct (ratings : List Rating) (u p : Nat) : Option Rating :=
  ratings.find? (fun r => r.userId == u && r.productId == p)

def ratingRepoUpdate (ratings : List Rating) (r : Rating) : List Rating :=
  ratings.map (fun q => if q.id == r.id then r else q)

def ratingServiceCreate (newId now u p : Nat) (score : ℚ)
    (ratings : List Rating) : Rating × List Rating :=
  match findByUserAndProduct ratings u p with
  | some existing =>
    let updated := { existing with score := score, createdAt := now }
    (updated, ratingRepoUpdate ratings updated)
  | none =>
    let r : Rating :=
      { id := newId, userId := u, productId := p, score := score, createdAt := now }
    (r, ratings ++ [r])

/-- The stored rating rows for a (user, product) pair. -/
def pairRows (ratings : List Rating) (u p : Nat) : List Rating :=
  ratings.filter (fun r => r.userId == u && r.productId == p)

/-! ### Rating aggregate (repository/ratings_repo.go lines 98-116,
service/rating_services.go lines 106-114)

`SELECT AVG(score), COUNT(*) WHERE product_id = ?`: the SQL average over
zero rows is NULL, which the GORM scan leaves as the zero value 0, and the
count is 0; no error is produced for an empty row set.  The service wraps
the repository result in an error-or-value shape (the only error source is
a database failure, which the store model does not exhibit). -/

def productRatings (ratings : List Rating) (pid : Nat) : List Rating :=
  ratings.filter (fun r => r.productId == pid)

def getAverageRatingByProductId (ratings : List Rating) (pid : Nat) : ℚ × Nat :=
  let rows := productRatings ratings pid
  (if rows.length = 0 then 0 else (rows.map Rating.score).sum / (rows.length : ℚ),
   rows.length)

def serviceGetAverageRating (ratings : List Rating) (pid : Nat) :
    Except String (ℚ × Nat) :=
  Except.ok (getAverageRatingByProductId ratings pid)

/-- Go `int(x)` on a float truncates toward zero; on an exact rational this
is the quotient of numerator by denominator truncated toward zero
(`Int.tdiv` is Lean's truncating division). -/
def goIntOfRat (q : ℚ) : Int := Int.tdiv q.num (q.den : Int)

/-- `GetPuanByUserIdItemId` (service/rating_services.go lines 96-104): the
repository lookup error is discarded; a missing row yields (0, error),
a found row yields `int(score)`. -/
def getPuanByUserIdItemId (ratings : List Rating) (u itemId : Nat) :
    Except String Int :=
  match findByUserAndProduct ratings u itemId with
  | none => Except.error "no rating found"
  | some r => Except.ok (goIntOfRat r.score)

/-! ### UserService demographic lookup (service/users_services.go lines
80-88): repository lookup by id; on absence `(nil, ErrUserNotFound)`.
The source additionally clears the password and obfuscates the email on
the returned copy; those fields are not part of the model. -/

def getDemographicInformation (users : List User) (uid : Nat) : Option User :=
  users.find? (fun u => u.id == uid)

/-! ### Transaction fetch for a product
(repository/transactions_repo.go `GetByProductID`: rows with the given
item id ordered by created_at descending; service/transaction_service.go
`GetByProductID` lines 51-67: pre-sign each row's image via `GetImage`,
failing the whole fetch on the first pre-sign failure). -/

def insertByCreatedAtDesc (t : Transaction) :
    List Transaction → List Transaction
  | [] => [t]
  | x :: xs =>
    if t.createdAt ≤ x.createdAt then x :: insertByCreatedAtDesc t xs
    else t :: x :: xs

def sortByCreatedAtDesc : List Transaction → List Transaction
  | [] => []
  | x :: xs => insertByCreatedAtDesc x (sortByCreatedAtDesc xs)

def handleTransactionImage (env : ImageEnv) (t : Transaction) :
    Except String Transaction :=
  if t.imageURL ≠ "" then
    match env.getImage ("images/" ++ t.imageURL) with
    | none => Except.error "failed to retrieve image URL"
    | some url => Except.ok { t with imageURL := url }
  else Except.ok { t with imageURL := "" }

def transactionsGetByProductID (env : ImageEnv) (ledger : List Transaction)
    (pid : Nat) : Except String (List Transaction) :=
  (sortByCreatedAtDesc (ledger.filter (fun t => t.itemId == pid))).mapM
    (handleTransactionImage env)

/-! ### Enriched product assembly
(controller/product_controller.go `populateAdditionalProductData`,
lines 435-467)

The Go function: fetch the product's transactions (a returned error fails
the assembly), fetch the rating aggregate (a returned error fails the
assembly; the store model's aggregate never fails), then
`user, _ := UserService.GetDemographicInformation(product.UserID)` -- the
error is DISCARDED -- and
`UserRating, _ := RatingService.GetPuanByUserIdItemId(product.UserID, product.ID)`
-- also discarded, leaving 0 when no rating exists.  The response is then
built with `User: *user`; when the demographic lookup failed, `user` is nil
and the dereference is a runtime panic, modelled as the distinct outcome
`nilPanic` (neither a returned error nor a response). -/

structure ProductResponse where
  user : User
  id : Nat
  name : String
  description : String
  price : ℚ
  category : String
  subCategory : String
  ratingCount : Nat
  ratingAverage : ℚ
  rating : Int
  createdAt : Nat
  status : String
  transactions : List Transaction
deriving DecidableEq, Repr

inductive PopResult where
  | ok (resp : ProductResponse)
  | fail (msg : String)
  | nilPanic
deriving DecidableEq, Repr

def populateAdditionalProductData (env : ImageEnv) (st : AppState)
    (product : Product) : PopResult :=
  match transactionsGetByProductID env st.ledger product.id with
  | Except.error e => PopResult.fail e
  | Except.ok txs =>
    let ac := getAverageRatingByProductId st.ratings product.id
    let ownerUser := getDemographicInformation st.users product.userId
    let userRating :=
      match getPuanByUserIdItemId st.ratings product.userId product.id with
      | Except.ok v => v
      | Except.error _ => 0
    match ownerUser with
    | none => PopResult.nilPanic
    | some u =>
      PopResult.ok
        { user := u, id := product.id, name := product.name,
          description := product.description, price := product.price,
          category := product.category, subCategory := product.subCategory,
          ratingCount := ac.2, ratingAverage := ac.1, rating := userRating,
          createdAt := product.createdAt, status := product.status,
          transactions := txs }

/-! ### Recommendation aggregation (service/utils.go, lines 106-173)

`FetchCollaborativeRecommendations`: the gateway call (HTTP GET, JSON
decode, uuid parsing) is the `Except`-valued parameter `gateway`; any of
its failure modes is `Except.error` and is propagated unchanged.  On
success: if fewer than 10 identifiers came back, append the ids of up to
10 random products (`GetRandomProducts`, `ORDER BY RAND() LIMIT 10`) with
no deduplication; resolve the merged id list through `GetProductsByIDs`
(`WHERE id IN`, table order); finally truncate to 10 when longer. -/

/-- Truncation of the resolved product list to at most 10 entries
(`if len(products) > 10 \x7b products = products[:10] \x7d`,
service/utils.go lines 167-170). -/
def truncateTo10 (l : List Product) : List Product :=
  if l.length > 10 then l.take 10 else l

def fetchCollaborativeRecommendations (store randomOrder : List Product)
    (gateway : Except String (List Nat)) : Except String (List Product) :=
  match gateway with
  | Except.error e => Except.error e
  | Except.ok recIds =>
    let merged :=
      if recIds.length < 10
      then recIds ++ (getRandomProducts randomOrder).map Product.id
      else recIds
    let products := getProductsByIDs store merged
    Except.ok (truncateTo10 products)

/-! ### Recommendation request handlers
(controller/product_controller.go)

List endpoints enrich each product with `populateAdditionalProductData`;
a returned enrichment error skips that one product (`continue`), while a
nil-owner panic aborts the whole request.  `GetContentBased` (lines
141-199): on a gateway failure it serves the random sample instead and
still answers 200.  `GetCollaborative` (lines 265-302): an error from
`FetchCollaborativeRecommendations` -- which includes every gateway
failure -- is answered as a 500 request failure.  `GetRandomProducts`
(lines 310-331) serves the random sample. -/

inductive ControllerResult where
  | ok (body : List ProductResponse)
  | err (msg : String)
  | panicked
deriving DecidableEq, Repr

def populateList (env : ImageEnv) (st : AppState) :
    List Product → Except Unit (List ProductResponse)
  | [] => Except.ok []
  | p :: ps =>
    match populateAdditionalProductData env st p with
    | PopResult.nilPanic => Except.error ()
    | PopResult.fail _ => populateList env st ps
    | PopResult.ok r => (populateList env st ps).map (fun rs => r :: rs)

def listResult (x : Except Unit (List ProductResponse)) : ControllerResult :=
  match x with
  | Except.error _ => ControllerResult.panicked
  | Except.ok rs => ControllerResult.ok rs

def getRandomProductsEndpoint (env : ImageEnv) (st : AppState)
    (randomOrder : List Product) : ControllerResult :=
  listResult (populateList env st (getRandomProducts randomOrder))

def getContentBased (env : ImageEnv) (st : AppState)
    (randomOrder : List Product) (gateway : Except String (List Nat))
    (imageURL : String) : ControllerResult :=
  if imageURL = "" then ControllerResult.err "Invalid image URL"
  else
    match gateway with
    | Except.error _ =>
      listResult (populateList env st (getRandomProducts randomOrder))
    | Except.ok ids =>
      listResult (populateList env st (getProductsByIDs st.products ids))

def getCollaborative (env : ImageEnv) (st : AppState)
    (randomOrder : List Product) (gateway : Except String (List Nat))
    (ctxUserId : Option Nat) : ControllerResult :=
  match ctxUserId with
  | none => ControllerResult.err "User authentication required"
  | some _ =>
    match fetchCollaborativeRecommendations st.products randomOrder gateway with
    | Except.error _ =>
      ControllerResult.err "Failed to retrieve collaborative products"
    | Except.ok products => listResult (populateList env st products)

/-! ### Pagination parameter handling
(controller/product_controller.go `GetPaginatedRandomProducts` lines
515-556 and `GetProductsByStatus` lines 342-383)

Query parameters are modelled as `Option Int` (`none` = absent and
unparseable alike; an absent parameter defaults through the same value).
Each handler computes `offset := (page - 1) * count` and passes
(count, offset) resp. (status, limit, offset) to the repository read. -/

def paginatedRandomQuery (countQ pageQ : Option Int) : Int × Int :=
  let count := match countQ with
    | none => 10
    | some c => if c ≤ 0 then 10 else c
  let page := match pageQ with
    | none => 1
    | some p => if p ≤ 0 then 1 else p
  (count, (page - 1) * count)

def byStatusQuery (statusQ : String) (limitQ pageQ : Option Int) :
    Option (String × Int × Int) :=
  if statusQ = "" then none
  else
    let limit := match limitQ with
      | none => 10
      | some l => if l < 1 then 10 else l
    let page := match pageQ with
      | none => 1
      | some p => if p < 1 then 1 else p
    some (statusQ, limit, (page - 1) * limit)

/-! ### Concrete oracle environments used by witnesses and counterexamples -/

/-- An environment whose external calls all succeed. -/
def trivialEnv : ImageEnv :=
  { decodeBase64 := fun _ => some [0],
    putImage := fun _ _ => some "https://example.com/presigned",
    getImage := fun _ => some "https://example.com/presigned" }

/-- An environment whose base64 decoding always fails. -/
def decodeFailEnv : ImageEnv :=
  { decodeBase64 := fun _ => none,
    putImage := fun _ _ => some "https://example.com/presigned",
    getImage := fun _ => some "https://example.com/presigned" }

/-! ### Concrete scenario data used by witnesses and counterexamples -/

/-- Two concrete ratings of product 5 with scores 4 and 2, for the C6
witness. -/
def c6Ratings : List Rating := [⟨1, 10, 5, 4, 0⟩, ⟨2, 11, 5, 2, 0⟩]

/-- Concrete product and state for the C2 scenario: product 1 owned by
user 10, priced 20, available. -/
def c2Product : Product :=
  ⟨1, 10, "chair", "an old chair", 20, "seating", "available", "furniture", 0⟩

def c2State : AppState := ⟨[c2Product], [], [], []⟩

/-- The transaction appended by the C2 scenario call. -/
def c2NewTransaction : Transaction := ⟨7, 1, 20, "resold item", "sold", "", 100⟩

/-- A product (id 5) that only the random fill can contribute in the C3
scenario. -/
def c3Filler : Product :=
  ⟨5, 30, "filler", "random fill", 1, "s", "available", "c", 0⟩

/-- A product (id 1) recommended live by the gateway in the C3 scenario. -/
def c3Live : Product :=
  ⟨1, 31, "live", "gateway hit", 2, "s", "available", "c", 0⟩

/-- The C3 product table: the filler row precedes the live row in table
order. -/
def c3Store : List Product := [c3Filler, c3Live]

/-- The value claim C7 expects in the `Rating` field (spec wording, for
comparison with the code's behaviour): the REQUESTING user's own stored
score for the product, 0 when none is recorded. -/
def requestingUserScore (ratings : List Rating) (requester pid : Nat) : Int :=
  match findByUserAndProduct ratings requester pid with
  | none => 0
  | some r => goIntOfRat r.score

/-- C7 scenario: product 1 owned by user 10; the owner rated it 5, the
requesting user 20 rated it 3. -/
def c7Product : Product :=
  ⟨1, 10, "lamp", "a lamp", 20, "s", "available", "c", 0⟩

def c7Owner : User := ⟨10, "owner", "img"⟩

def c7State : AppState :=
  ⟨[c7Product], [], [⟨1, 10, 1, 5, 0⟩, ⟨2, 20, 1, 3, 0⟩], [c7Owner]⟩

/-- The enriched response the code produces in the C7 scenario. -/
def c7Resp : ProductResponse :=
  { user := c7Owner, id := 1, name := "lamp", description := "a lamp",
    price := 20, category := "c", subCategory := "s", ratingCount := 2,
    ratingAverage := 4, rating := 5, createdAt := 0, status := "available",
    transactions := [] }

/-- C8 scenario: product 2 owned by user 11, who is absent from the user
table; no transactions and no ratings exist. -/
def c8Product : Product :=
  ⟨2, 11, "desk", "a desk", 30, "s", "available", "c", 0⟩

def c8State : AppState := ⟨[c8Product], [], [], []⟩

/-! ### Claims -/

/-- Claim C1.  The claim states that action "submitted" yields status
"available" and "submittedRevitalized" yields "restored".  The code
(controller/home.go lines 421-433) compares against the misspelled literal
"submited", so the declared action constant "submitted"
(`Submitted TransactionAction = "submitted"` in the models package, also
the swagger enum value) falls through to "sold", as does
"submittedRevitalized"; only the misspelling itself would yield
"available".  This theorem evaluates the embedded status derivation at the
claim's action values, exhibiting the divergence. -/
theorem C1_status_of_declared_actions :
    resultingStatus "submitted" = "sold" ∧
    resultingStatus "submittedRevitalized" = "sold" ∧
    resultingStatus "revitalized" = "restored" ∧
    resultingStatus "sold" = "sold" ∧
    resultingStatus "submited" = "available" := by
  refine ⟨?_, ?_, ?_, ?_, ?_⟩ <;> simp [resultingStatus]

/-- Claim C9.  Both paginated reads compute the repository offset as
(page - 1) * count for positive parameters: the paginated random read
passes (count, offset) and the by-status read passes
(status, limit, offset). -/
theorem C9_pagination_offsets (c p : Int) (hc : 0 < c) (hp : 0 < p) :
    (paginatedRandomQuery (some c) (some p)).2 = (p - 1) * c ∧
    byStatusQuery "sold" (some c) (some p) = some ("sold", c, (p - 1) * c) := by
  have hc1 : ¬ c ≤ 0 := by omega
  have hp1 : ¬ p ≤ 0 := by omega
  have hc2 : ¬ c < 1 := by omega
  have hp2 : ¬ p < 1 := by omega
  constructor
  · simp [paginatedRandomQuery, hc1, hp1]
  · simp [byStatusQuery, hc2, hp2]

/-- Witness for C9 at the claim's concrete inputs: count=10, page=2 gives
offset 10, and limit=5, page=3 gives offset 10. -/
theorem C9_pagination_offsets_witness :
    (paginatedRandomQuery (some 10) (some 2)).2 = 10 ∧
    byStatusQuery "sold" (some 5) (some 3) = some ("sold", 5, 10) := by
  constructor
  · have h := (C9_pagination_offsets 10 2 (by norm_num) (by norm_num)).1
    simpa using h
  · have h := (C9_pagination_offsets 5 3 (by norm_num) (by norm_num)).2
    simpa using h

/-- Claim C6.  The rating aggregate query is not an error for a product
with zero ratings and reports average 0 and count 0; with ratings it
reports their arithmetic mean (avg * count = sum of scores) and count. -/
theorem C6_rating_aggregate (ratings : List Rating) (pid : Nat) :
    (productRatings ratings pid = [] →
      serviceGetAverageRating ratings pid = Except.ok (0, 0)) ∧
    (productRatings ratings pid ≠ [] →
      ∃ avg : ℚ,
        serviceGetAverageRating ratings pid =
          Except.ok (avg, (productRatings ratings pid).length) ∧
        avg * ((productRatings ratings pid).length : ℚ) =
          ((productRatings ratings pid).map Rating.score).sum) := by
  constructor
  · intro h
    simp [serviceGetAverageRating, getAverageRatingByProductId, h]
  · intro h
    have hlen : (productRatings ratings pid).length ≠ 0 := by
      simpa [List.length_eq_zero] using h
    have hlenQ : ((productRatings ratings pid).length : ℚ) ≠ 0 := by
      exact_mod_cast hlen
    refine ⟨((productRatings ratings pid).map Rating.score).sum /
      ((productRatings ratings pid).length : ℚ), ?_, ?_⟩
    · simp [serviceGetAverageRating, getAverageRatingByProductId, hlen]
    · exact div_mul_cancel₀ _ hlenQ

/-- Witness for C6: a product with zero ratings reports (0, 0) without an
error, and one with two ratings reports their mean over count 2. -/
theorem C6_rating_aggregate_witness :
    serviceGetAverageRating [] 5 = Except.ok (0, 0) ∧
    ∃ avg : ℚ,
      serviceGetAverageRating c6Ratings 5 =
        Except.ok (avg, (productRatings c6Ratings 5).length) ∧
      avg * ((productRatings c6Ratings 5).length : ℚ) =
        ((productRatings c6Ratings 5).map Rating.score).sum :=
  ⟨(C6_rating_aggregate [] 5).1 rfl,
   (C6_rating_aggregate c6Ratings 5).2 (by decide)⟩

/-- Claim C10.  When the request carries image data and either the base64
decode or the upload fails, `AddTransaction` returns an error and the
ledger is unchanged: the image step runs strictly before the repository
write. -/
theorem C10_image_failure_preserves_ledger (env : ImageEnv) (newId now : Nat)
    (req : TransactionRequest) (ledger : List Transaction)
    (himg : req.imageData ≠ "")
    (hfail : env.decodeBase64 req.imageData = none ∨
      ∀ bytes, env.decodeBase64 req.imageData = some bytes →
        env.putImage ("images/" ++ (toString newId ++ ".jpg")) bytes = none) :
    ∃ e, addTransaction env newId now req ledger = (Except.error e, ledger) := by
  rcases hfail with h | h
  · refine ⟨"failed to handle image URL: failed to decode image data", ?_⟩
    simp [addTransaction, handleTransactionPutImage, himg, h]
  · cases hdec : env.decodeBase64 req.imageData with
    | none =>
      refine ⟨"failed to handle image URL: failed to decode image data", ?_⟩
      simp [addTransaction, handleTransactionPutImage, himg, hdec]
    | some bytes =>
      refine ⟨"failed to handle image URL: failed to upload image", ?_⟩
      simp [addTransaction, handleTransactionPutImage, himg, hdec, h bytes hdec]

/-- Witness for C10: a failing base64 decode on a request with image data
leaves an empty ledger empty and surfaces an error. -/
theorem C10_image_failure_witness :
    ∃ e, addTransaction decodeFailEnv 7 100 ⟨1, 2, "d", "sold", "xx", ""⟩ [] =
      (Except.error e, []) :=
  C10_image_failure_preserves_ledger decodeFailEnv 7 100
    ⟨1, 2, "d", "sold", "xx", ""⟩ [] (by simp) (Or.inl rfl)

/-- A product found by id lookup has the looked-up id. -/
lemma productRepoGetByID_id_eq (l : List Product) (pid : Nat) (P : Product)
    (h : productRepoGetByID l pid = some P) : P.id = pid := by
  have := List.find?_some h
  simpa using this

/-- After `productRepo.Update` with a row carrying the same primary key as
the row found by `GetByID`, the lookup returns the updated row. -/
lemma productRepoGetByID_after_update (pid : Nat) (P newP : Product)
    (hid : newP.id = P.id) :
    ∀ l : List Product, productRepoGetByID l pid = some P →
      productRepoGetByID (productRepoUpdate l newP) pid = some newP := by
  intro l
  induction l with
  | nil => intro h; simp [productRepoGetByID] at h
  | cons q rest ih =>
    intro h
    have hPid : P.id = pid := productRepoGetByID_id_eq _ _ _ h
    by_cases hq : q.id = pid
    · have hPq : P = q := by
        have hsome : some q = some P := by
          simpa [productRepoGetByID, List.find?_cons_of_pos, hq] using h
        exact (Option.some_injective _ hsome).symm
    -- the found row is the head; the update rewrites exactly the head
      have hq2 : q.id = newP.id := by rw [hid, hPq]
      have hhead : productRepoUpdate (q :: rest) newP =
          newP :: rest.map (fun r => if r.id = newP.id then newP else r) := by
        simp [productRepoUpdate, hq2]
      have hnp : newP.id = pid := by rw [hid, hPq, hq]
      rw [hhead]
      simp [productRepoGetByID, hnp]
    · have hrest : productRepoGetByID rest pid = some P := by
        simpa [productRepoGetByID, List.find?_cons_of_neg, hq] using h
      have hqn : ¬ q.id = newP.id := by
        rw [hid, hPid]; exact hq
      have hih := ih hrest
      simpa [productRepoUpdate, productRepoGetByID, hqn, hq] using hih

/-- Claim C2 counterexample.  At the concrete scenario (product 1 owned by
user 10; user 20 records action "sold" with price 50) the call succeeds
and appends exactly one new transaction with action "sold", but no stored
transaction row records a price -- `models.Transaction` has no price
column -- so the claimed persisted "Transaction with action sold and
price 50" does not exist. -/
theorem C2_counterexample :
    (addTransactionToItem trivialEnv 7 100 1 20
        ⟨"resold item", "sold", "", "", 50⟩ c2State).1 =
      Except.ok c2NewTransaction ∧
    (addTransactionToItem trivialEnv 7 100 1 20
        ⟨"resold item", "sold", "", "", 50⟩ c2State).2.ledger =
      [c2NewTransaction] ∧
    c2NewTransaction.action = "sold" ∧
    c2NewTransaction.recordedPrice = none :=
  ⟨rfl, rfl, rfl, rfl⟩

/-- Claim C2 (amended): a successful recordTransaction of action "sold"
with price 50 appends one new transaction with action "sold" -- the
transaction row itself records no price -- and afterwards the stored
product has status "sold", owner U2, and price 50. -/
theorem C2_amended_sale_flow (env : ImageEnv) (newId now pid u2 : Nat)
    (desc imgURL : String) (st : AppState) (P : Product)
    (hP : productRepoGetByID st.products pid = some P) :
    ∃ t st2,
      addTransactionToItem env newId now pid u2
          ⟨desc, "sold", "", imgURL, 50⟩ st = (Except.ok t, st2) ∧
      st2.ledger = st.ledger ++ [t] ∧
      t.action = "sold" ∧ t.itemId = pid ∧ t.userId = u2 ∧
      t.recordedPrice = none ∧
      productRepoGetByID st2.products pid =
        some { P with userId := u2, price := 50, status := "sold" } := by
  refine ⟨⟨newId, pid, u2, desc, "sold", "", now⟩,
    { st with
        products := productRepoUpdate st.products
          { P with userId := u2, price := 50, status := "sold" },
        ledger := st.ledger ++ [⟨newId, pid, u2, desc, "sold", "", now⟩] },
    ?_, rfl, rfl, rfl, rfl, rfl, ?_⟩
  · simp [addTransactionToItem, hP, addTransaction, handleTransactionPutImage,
      resultingStatus]
  · exact productRepoGetByID_after_update pid P
      { P with userId := u2, price := 50, status := "sold" } rfl st.products hP

/-- Witness for the amended C2 at the concrete scenario. -/
theorem C2_amended_sale_flow_witness :
    ∃ t st2,
      addTransactionToItem trivialEnv 7 100 1 20
          ⟨"resold item", "sold", "", "", 50⟩ c2State = (Except.ok t, st2) ∧
      st2.ledger = c2State.ledger ++ [t] ∧
      t.action = "sold" ∧ t.itemId = 1 ∧ t.userId = 20 ∧
      t.recordedPrice = none ∧
      productRepoGetByID st2.products 1 =
        some { c2Product with userId := 20, price := 50, status := "sold" } :=
  C2_amended_sale_flow trivialEnv 7 100 1 20 "resold item" "" c2State c2Product
    (by decide)

/-- Claim C4 counterexample.  A failed collaborative gateway call (here:
a connection error) is answered by `GetCollaborative` as a 500-style
request failure, not as a random product sample: the fallback only exists
inside `FetchCollaborativeRecommendations` for a short-but-successful
result, while a gateway failure propagates out as an error. -/
theorem C4_counterexample :
    getCollaborative trivialEnv ⟨[], [], [], []⟩ []
        (Except.error "connection refused") (some 3) =
      ControllerResult.err "Failed to retrieve collaborative products" := rfl

/-- Claim C4 (amended): only the content-based handler absorbs a gateway
failure -- it then behaves exactly like the random-products endpoint --
while the collaborative handler surfaces any gateway failure as a request
failure. -/
theorem C4_amended_gateway_failure (env : ImageEnv) (st : AppState)
    (randomOrder : List Product) (e imageURL : String) (uid : Nat)
    (himg : imageURL ≠ "") :
    getContentBased env st randomOrder (Except.error e) imageURL =
      getRandomProductsEndpoint env st randomOrder ∧
    getCollaborative env st randomOrder (Except.error e) (some uid) =
      ControllerResult.err "Failed to retrieve collaborative products" := by
  constructor
  · simp [getContentBased, himg, getRandomProductsEndpoint]
  · simp [getCollaborative, fetchCollaborativeRecommendations]

/-- Witness for the amended C4 at concrete inputs. -/
theorem C4_amended_gateway_failure_witness :
    getContentBased trivialEnv ⟨[], [], [], []⟩ []
        (Except.error "timeout") "img.jpg" =
      getRandomProductsEndpoint trivialEnv ⟨[], [], [], []⟩ [] ∧
    getCollaborative trivialEnv ⟨[], [], [], []⟩ []
        (Except.error "timeout") (some 3) =
      ControllerResult.err "Failed to retrieve collaborative products" :=
  C4_amended_gateway_failure trivialEnv ⟨[], [], [], []⟩ [] "timeout" "img.jpg" 3
    (by simp)

/-- Structural facts about a resolved-and-truncated id lookup: at most 10
rows, no duplicate ids when the store has none, and every row is a store
row. -/
lemma truncateTo10_getProductsByIDs_facts (store : List Product)
    (ids : List Nat) (hnodup : (store.map Product.id).Nodup) :
    (truncateTo10 (getProductsByIDs store ids)).length ≤ 10 ∧
    ((truncateTo10 (getProductsByIDs store ids)).map Product.id).Nodup ∧
    ∀ p ∈ truncateTo10 (getProductsByIDs store ids), p ∈ store := by
  have hsubf : (getProductsByIDs store ids).Sublist store :=
    List.filter_sublist _
  have hsubt : (truncateTo10 (getProductsByIDs store ids)).Sublist
      (getProductsByIDs store ids) := by
    unfold truncateTo10
    split
    · exact List.take_sublist _ _
    · exact List.Sublist.refl _
  have hsub := hsubt.trans hsubf
  refine ⟨?_, ?_, ?_⟩
  · unfold truncateTo10
    split
    · rw [List.length_take]
      exact min_le_left _ _
    · omega
  · exact List.Nodup.sublist (hsub.map Product.id) hnodup
  · intro p hp
    exact hsub.subset hp

/-- Claim C3 counterexample.  With a two-row table (filler id 5 before
live id 1) and the gateway returning the 3 identifiers [1, 2, 3], the
aggregator returns only 2 entries -- not exactly 10 -- and the random-fill
row (id 5, not a gateway hit) precedes the live gateway hit (id 1),
because ids are resolved by an `IN` query in table order and random fill
ids are merged without regard to order or duplication. -/
theorem C3_counterexample :
    fetchCollaborativeRecommendations c3Store c3Store (Except.ok [1, 2, 3]) =
      Except.ok [c3Filler, c3Live] ∧
    [c3Filler, c3Live].length = 2 ∧
    List.contains [1, 2, 3] c3Filler.id = false ∧
    List.contains [1, 2, 3] c3Live.id = true := by
  refine ⟨rfl, rfl, by decide, by decide⟩

/-- Claim C3 (amended): when the gateway succeeds with any identifier
list, the aggregator returns at most 10 entries, all of them store rows,
with no duplicate product identifiers provided the store itself has
none; neither exactly-10 padding nor gateway-hits-first ordering is
guaranteed. -/
theorem C3_amended_merge_bounds (store randomOrder : List Product)
    (recIds : List Nat) (hnodup : (store.map Product.id).Nodup) :
    ∃ l, fetchCollaborativeRecommendations store randomOrder
        (Except.ok recIds) = Except.ok l ∧
      l.length ≤ 10 ∧ (l.map Product.id).Nodup ∧ ∀ p ∈ l, p ∈ store := by
  have h := truncateTo10_getProductsByIDs_facts store
    (if recIds.length < 10
      then recIds ++ (getRandomProducts randomOrder).map Product.id
      else recIds) hnodup
  exact ⟨_, rfl, h.1, h.2.1, h.2.2⟩

/-- Witness for the amended C3 at the concrete two-row scenario. -/
theorem C3_amended_merge_bounds_witness :
    ∃ l, fetchCollaborativeRecommendations c3Store c3Store
        (Except.ok [1, 2, 3]) = Except.ok l ∧
      l.length ≤ 10 ∧ (l.map Product.id).Nodup ∧ ∀ p ∈ l, p ∈ c3Store :=
  C3_amended_merge_bounds c3Store c3Store [1, 2, 3] (by decide)

/-- Evaluation of the enrichment at the C7 scenario (the ℚ average is
evaluated by norm_num, which the kernel cannot do through `decide`). -/
lemma c7_populate_eval :
    populateAdditionalProductData trivialEnv c7State c7Product =
      PopResult.ok c7Resp := by
  unfold populateAdditionalProductData
  rw [show transactionsGetByProductID trivialEnv c7State.ledger c7Product.id =
    Except.ok [] from rfl]
  norm_num [getAverageRatingByProductId,
    productRatings, getDemographicInformation, getPuanByUserIdItemId,
    findByUserAndProduct, goIntOfRat, trivialEnv, c7State, c7Product, c7Resp,
    c7Owner, List.filter, List.find?]

/-- Claim C7 counterexample.  The enrichment passes the product OWNER's
identifier -- `product.UserID`, not the requesting user's -- to
`GetPuanByUserIdItemId`: in the concrete scenario the response carries
the owner's score 5 while the requesting user's own score is 3. -/
theorem C7_counterexample :
    populateAdditionalProductData trivialEnv c7State c7Product =
      PopResult.ok c7Resp ∧
    c7Resp.rating = 5 ∧
    requestingUserScore c7State.ratings 20 c7Product.id = 3 := by
  refine ⟨c7_populate_eval, by decide, by decide⟩

/-- Claim C7 (amended): in every enriched product response the `Rating`
field is the product owner's own stored score for the product (truncated
to an integer), and 0 when the owner has recorded none. -/
theorem C7_amended_rating_is_owner_score (env : ImageEnv) (st : AppState)
    (product : Product) (resp : ProductResponse)
    (h : populateAdditionalProductData env st product = PopResult.ok resp) :
    resp.rating = requestingUserScore st.ratings product.userId product.id := by
  unfold populateAdditionalProductData at h
  cases htx : transactionsGetByProductID env st.ledger product.id with
  | error e => rw [htx] at h; exact absurd h (by simp)
  | ok txs =>
    rw [htx] at h
    cases hu : getDemographicInformation st.users product.userId with
    | none => rw [hu] at h; exact absurd h (by simp)
    | some u =>
      rw [hu] at h
      simp only [PopResult.ok.injEq] at h
      rw [← h]
      unfold requestingUserScore getPuanByUserIdItemId
      cases hf : findByUserAndProduct st.ratings product.userId product.id with
      | none => simp [hf]
      | some r => simp [hf]

/-- Witness for the amended C7 at the concrete scenario: the owner rated
the product 5 and the response carries 5. -/
theorem C7_amended_rating_witness :
    c7Resp.rating =
      requestingUserScore c7State.ratings c7Product.userId c7Product.id :=
  C7_amended_rating_is_owner_score trivialEnv c7State c7Product c7Resp
    c7_populate_eval

/-- Claim C8 counterexample.  With the product owner absent from the user
table (the demographic lookup fails) and every other read succeeding, the
assembly neither returns an error nor a response: the discarded lookup
error leaves a nil owner whose dereference is a runtime panic. -/
theorem C8_counterexample :
    getDemographicInformation c8State.users c8Product.userId = none ∧
    populateAdditionalProductData trivialEnv c8State c8Product =
      PopResult.nilPanic := by
  refine ⟨by decide, by decide⟩

/-- Claim C8 (amended): when the transactions fetch succeeds but the owner
demographic lookup fails, the assembly does not fail with a returned
error; the lookup error is discarded and the nil owner dereference
panics. -/
theorem C8_amended_owner_lookup_panics (env : ImageEnv) (st : AppState)
    (product : Product) (txs : List Transaction)
    (htx : transactionsGetByProductID env st.ledger product.id = Except.ok txs)
    (hu : getDemographicInformation st.users product.userId = none) :
    populateAdditionalProductData env st product = PopResult.nilPanic := by
  unfold populateAdditionalProductData
  rw [htx, hu]

/-- Witness for the amended C8 at the concrete scenario. -/
theorem C8_amended_owner_lookup_panics_witness :
    populateAdditionalProductData trivialEnv c8State c8Product =
      PopResult.nilPanic :=
  C8_amended_owner_lookup_panics trivialEnv c8State c8Product []
    rfl (by decide)

/-- Updating by a primary key that no row carries leaves the rating table
unchanged. -/
lemma ratingRepoUpdate_absent (r2 : Rating) :
    ∀ l : List Rating, (∀ x ∈ l, x.id ≠ r2.id) → ratingRepoUpdate l r2 = l := by
  intro l
  induction l with
  | nil => intro _; rfl
  | cons x xs ih =>
    intro h
    have hx : ¬ (x.id = r2.id) := h x (List.mem_cons_self x xs)
    have hxs := ih (fun y hy => h y (List.mem_cons_of_mem x hy))
    unfold ratingRepoUpdate at hxs ⊢
    simp only [List.map_cons]
    rw [if_neg (by simpa using hx), hxs]

/-- An update keyed on the primary key leaves the id column unchanged. -/
lemma ratingRepoUpdate_ids (r2 : Rating) :
    ∀ l : List Rating,
      (ratingRepoUpdate l r2).map Rating.id = l.map Rating.id := by
  intro l
  induction l with
  | nil => rfl
  | cons x xs ih =>
    unfold ratingRepoUpdate at ih ⊢
    simp only [List.map_cons, ih]
    congr 1
    by_cases h : x.id = r2.id
    · simp [h]
    · simp [h]

/-- When the filter of a list is the singleton [a], find? with the same
predicate returns a. -/
lemma find?_of_filter_singleton (pred : Rating → Bool) (a : Rating) :
    ∀ l : List Rating, l.filter pred = [a] → l.find? pred = some a := by
  intro l
  induction l with
  | nil => intro h; simp at h
  | cons x xs ih =>
    intro h
    by_cases hx : pred x = true
    · rw [List.filter_cons_of_pos hx] at h
      injection h with h1 h2
      rw [List.find?_cons_of_pos _ hx, h1]
    · rw [List.filter_cons_of_neg (by simpa using hx)] at h
      rw [List.find?_cons_of_neg _ (by simpa using hx)]
      exact ih h

/-- In a table with distinct primary keys where a predicate has exactly
one matching row (the one find? returns), updating that row in place by
its primary key leaves exactly the updated row matching. -/
lemma filter_update_singleton (pred : Rating → Bool) (r0 r2 : Rating)
    (hid : r2.id = r0.id) (hr2 : pred r2 = true) :
    ∀ l : List Rating, (l.map Rating.id).Nodup →
      l.find? pred = some r0 →
      (l.filter pred).length ≤ 1 →
      (ratingRepoUpdate l r2).filter pred = [r2] := by
  intro l
  induction l with
  | nil => intro _ hf _; simp at hf
  | cons x xs ih =>
    intro hnd hf hlen
    rw [List.map_cons, List.nodup_cons] at hnd
    obtain ⟨hxnotin, hnd2⟩ := hnd
    by_cases hx : pred x = true
    · -- the head is the matching row
      rw [List.find?_cons_of_pos _ hx] at hf
      injection hf with hf
      have hxid : x.id = r2.id := by rw [hid, ← hf]
      have htail : ∀ y ∈ xs, y.id ≠ r2.id := by
        intro y hy hyid
        exact hxnotin (by rw [hxid, ← hyid]; exact List.mem_map_of_mem _ hy)
      have htailrows : xs.filter pred = [] := by
        rw [List.filter_cons_of_pos hx] at hlen
        simp only [List.length_cons] at hlen
        exact List.eq_nil_of_length_eq_zero (by omega)
      unfold ratingRepoUpdate
      rw [List.map_cons, if_pos (by simpa using hxid)]
      have habs := ratingRepoUpdate_absent r2 xs htail
      unfold ratingRepoUpdate at habs
      rw [habs, List.filter_cons_of_pos hr2, htailrows]
    · -- the matching row is in the tail
      rw [List.find?_cons_of_neg _ (by simpa using hx)] at hf
      have hr0mem : r0 ∈ xs := List.mem_of_find?_eq_some hf
      have hxid : ¬ (x.id = r2.id) := by
        intro hcontra
        exact hxnotin (by rw [hcontra, hid]; exact List.mem_map_of_mem _ hr0mem)
      have hlen2 : (xs.filter pred).length ≤ 1 := by
        rwa [List.filter_cons_of_neg (by simpa using hx)] at hlen
      have hih := ih hnd2 hf hlen2
      unfold ratingRepoUpdate at hih ⊢
      rw [List.map_cons, if_neg (by simpa using hxid),
        List.filter_cons_of_neg (by simpa using hx)]
      exact hih

/-- The pair-predicate instance of `filter_update_singleton`: updating the
unique (user, product) row in place leaves exactly the updated row for the
pair. -/
lemma pairRows_after_update (u p : Nat) (r0 r2 : Rating) (hid : r2.id = r0.id)
    (hu2 : r2.userId = u) (hp2 : r2.productId = p)
    (l : List Rating) (hnd : (l.map Rating.id).Nodup)
    (hf : findByUserAndProduct l u p = some r0)
    (hlen : (pairRows l u p).length ≤ 1) :
    pairRows (ratingRepoUpdate l r2) u p = [r2] := by
  unfold findByUserAndProduct at hf
  unfold pairRows at hlen ⊢
  exact filter_update_singleton _ r0 r2 hid (by simp [hu2, hp2]) l hnd hf hlen

/-- The second submission of a pair whose row set is the singleton [x1]
updates that row in place, leaving one row with the new score. -/
lemma second_submission (u p id2 now2 : Nat) (s2 : ℚ) (st1 : List Rating)
    (x1 : Rating) (h1 : pairRows st1 u p = [x1])
    (hnd1 : (st1.map Rating.id).Nodup) :
    ∃ r2, pairRows (ratingServiceCreate id2 now2 u p s2 st1).2 u p = [r2] ∧
      r2.score = s2 := by
  have hx1mem : x1 ∈ pairRows st1 u p := by rw [h1]; exact List.mem_singleton_self x1
  have hx1pred : (x1.userId == u && x1.productId == p) = true := by
    unfold pairRows at hx1mem
    exact (List.mem_filter.mp hx1mem).2
  have hx1u : x1.userId = u := by
    have := hx1pred
    simp only [Bool.and_eq_true, beq_iff_eq] at this
    exact this.1
  have hx1p : x1.productId = p := by
    have := hx1pred
    simp only [Bool.and_eq_true, beq_iff_eq] at this
    exact this.2
  have hf2 : findByUserAndProduct st1 u p = some x1 := by
    unfold findByUserAndProduct
    unfold pairRows at h1
    exact find?_of_filter_singleton _ x1 st1 h1
  have hstep2 : (ratingServiceCreate id2 now2 u p s2 st1).2 =
      ratingRepoUpdate st1 { x1 with score := s2, createdAt := now2 } := by
    simp [ratingServiceCreate, hf2]
  refine ⟨{ x1 with score := s2, createdAt := now2 }, ?_, rfl⟩
  rw [hstep2]
  exact pairRows_after_update u p x1 { x1 with score := s2, createdAt := now2 }
    rfl hx1u hx1p st1 hnd1 hf2 (by rw [h1]; simp)

/-- Claim C5.  In a rating table with distinct primary keys and at most
one existing row for the (user, product) pair, two submissions in
sequence leave exactly one stored row for the pair and its score is the
second submission's (the second submission updates in place). -/
theorem C5_rating_upsert (ratings : List Rating) (u p id1 id2 now1 now2 : Nat)
    (s1 s2 : ℚ)
    (hnd : (ratings.map Rating.id).Nodup)
    (hfresh : ∀ r ∈ ratings, r.id ≠ id1)
    (hinv : (pairRows ratings u p).length ≤ 1) :
    ∃ r2 : Rating,
      pairRows (ratingServiceCreate id2 now2 u p s2
        (ratingServiceCreate id1 now1 u p s1 ratings).2).2 u p = [r2] ∧
      r2.score = s2 := by
  cases hf : findByUserAndProduct ratings u p with
  | none =>
    have hstep1 : (ratingServiceCreate id1 now1 u p s1 ratings).2 =
        ratings ++ [⟨id1, u, p, s1, now1⟩] := by
      simp [ratingServiceCreate, hf]
    have hrows0 : pairRows ratings u p = [] := by
      unfold findByUserAndProduct at hf
      unfold pairRows
      rw [List.filter_eq_nil_iff]
      intro a ha
      have := List.find?_eq_none.mp hf a ha
      simpa using this
    have h1 : pairRows (ratingServiceCreate id1 now1 u p s1 ratings).2 u p =
        [⟨id1, u, p, s1, now1⟩] := by
      rw [hstep1]
      unfold pairRows
      rw [List.filter_append]
      unfold pairRows at hrows0
      rw [hrows0]
      simp
    have hnd1 : (((ratingServiceCreate id1 now1 u p s1 ratings).2).map
        Rating.id).Nodup := by
      rw [hstep1, List.map_append, List.nodup_append]
      refine ⟨hnd, by simp, ?_⟩
      intro a ha hb
      simp only [List.map_cons, List.map_nil, List.mem_singleton] at hb
      obtain ⟨r, hr, hrid⟩ := List.mem_map.mp ha
      exact hfresh r hr (hrid.trans hb)
    exact second_submission u p id2 now2 s2 _ _ h1 hnd1
  | some r0 =>
    have hpred := List.find?_some (by simpa [findByUserAndProduct] using hf)
    have hr0u : r0.userId = u := by
      simp only [Bool.and_eq_true, beq_iff_eq] at hpred
      exact hpred.1
    have hr0p : r0.productId = p := by
      simp only [Bool.and_eq_true, beq_iff_eq] at hpred
      exact hpred.2
    have hstep1 : (ratingServiceCreate id1 now1 u p s1 ratings).2 =
        ratingRepoUpdate ratings { r0 with score := s1, createdAt := now1 } := by
      simp [ratingServiceCreate, hf]
    have h1 : pairRows (ratingServiceCreate id1 now1 u p s1 ratings).2 u p =
        [{ r0 with score := s1, createdAt := now1 }] := by
      rw [hstep1]
      exact pairRows_after_update u p r0
        { r0 with score := s1, createdAt := now1 } rfl hr0u hr0p ratings hnd
        hf hinv
    have hnd1 : (((ratingServiceCreate id1 now1 u p s1 ratings).2).map
        Rating.id).Nodup := by
      rw [hstep1, ratingRepoUpdate_ids]
      exact hnd
    exact second_submission u p id2 now2 s2 _ _ h1 hnd1

/-- Witness for C5 from an empty table: user 1 rates product 2 with 4 and
then with 2; exactly one row remains and its score is 2. -/
theorem C5_rating_upsert_witness :
    ∃ r2 : Rating,
      pairRows (ratingServiceCreate 6 101 1 2 2
        (ratingServiceCreate 5 100 1 2 4 []).2).2 1 2 = [r2] ∧
      r2.score = 2 :=
  C5_rating_upsert [] 1 2 5 6 100 101 4 2 (by simp) (by simp) (by simp [pairRows])

end EcoNova
